import Mathlib

/-!
Verification development for the `automock` declaration analyzer and
mock-synthesis engine (`mockall_derive/src/automock.rs`).

The Rust source walks `syn` abstract syntax trees.  The embedding below
mirrors the syn data constructors the source actually inspects; payload
fields that the engine never reads (token spans of punctuation, patterns,
ABI strings, attribute lists, mutability markers, ...) are elided and noted
in comments.  Machine-level details:

* `syn::Ident` is modelled as `String` (identifier text only).
* Source spans are modelled as opaque numbers; only their identity matters
  for the diagnostics the engine attaches.
* `compile_error` lives in the crate root (`lib.rs`), outside the analyzed
  file.  Its call sites in `automock.rs` continue executing after the call
  (several are immediately followed by `return` statements), so it is
  modelled, following the spec's description of diagnostics ("each failure
  is a single attached message anchored to a source span"), as appending a
  span-anchored diagnostic to the output; every fallible operation here
  returns its value together with the list of diagnostics it emitted.
* A Rust `panic!`/`unwrap` failure aborts the process and produces no
  output at all; functions that can panic return an `Option`, with `none`
  standing for the abort.
-/

namespace Automock

/-- Opaque source position. -/
abbrev Span := Nat

/-- A span-anchored compiler diagnostic, as emitted by `compile_error`. -/
structure Diagnostic where
  span : Span
  msg : String
deriving Repr, DecidableEq

mutual

/-- `syn::Type`, restricted to the fields `substitute_type` reads.
Element-only constructors elide untouched payload (e.g. the array length
expression, reference lifetime/mutability, pointer constness). `macTy` and
`verbatim` elide their unparsed token payload to a span, which is all the
engine looks at. -/
inductive Ty where
  | slice (elem : Ty)
  | array (elem : Ty)
  | ptr (elem : Ty)
  | reference (elem : Ty)
  | bareFn (inputs : List Ty) (output : Option Ty)
  | tuple (elems : List Ty)
  | path (sp : Span) (qself : Bool) (p : Path)
  | traitObject (bounds : List TypeParamBound)
  | implTrait (bounds : List TypeParamBound)
  | paren (elem : Ty)
  | group (elem : Ty)
  | macTy (sp : Span)
  | verbatim (sp : Span)
  | infer
  | never

/-- `syn::Path`: optional leading `::`, then segments. -/
inductive Path where
  | mk (leadingColon : Bool) (segments : List PathSegment) (sp : Span)

/-- `syn::PathSegment`: an identifier plus its generic arguments. -/
inductive PathSegment where
  | mk (ident : String) (arguments : PathArguments)

/-- `syn::PathArguments`. The parenthesized payload is elided to a span
(the engine only reports an error at it). -/
inductive PathArguments where
  | none
  | angleBracketed (args : List GenericArgument)
  | parenthesized (sp : Span)

/-- `syn::GenericArgument`, restricted to the variants the generic filter
distinguishes; bindings/constraints/const expressions collapse to `other`. -/
inductive GenericArgument where
  | lifetime (lt : String)
  | type (ty : Ty)
  | other

/-- `syn::TypeParamBound`. A trait bound keeps its path (modifier and
bound lifetimes elided, untouched by the engine). -/
inductive TypeParamBound where
  | traitBound (sp : Span) (path : Path)
  | lifetime (lt : String)

end

def Path.leadingColon : Path → Bool
  | .mk lc _ _ => lc

def Path.segments : Path → List PathSegment
  | .mk _ segs _ => segs

def Path.span : Path → Span
  | .mk _ _ sp => sp

def PathSegment.ident : PathSegment → String
  | .mk id _ => id

def PathSegment.arguments : PathSegment → PathArguments
  | .mk _ args => args

/-- `syn::PathArguments::is_none`. -/
def PathArguments.isNone : PathArguments → Bool
  | .none => true
  | _ => false

/-- `syn::Path::is_ident` (external AST library helper): the path has no
leading colon, exactly one segment, that segment has no generic arguments,
and its identifier equals the given one. -/
def Path.is_ident (p : Path) (id : String) : Bool :=
  !p.leadingColon && p.segments.length == 1 &&
    ((p.segments.headD ⟨"", .none⟩).arguments.isNone &&
     (p.segments.headD ⟨"", .none⟩).ident == id)

/-- `Type::span()` for the constructors whose span the engine reports at;
remaining constructors are approximated by position 0 (the engine never
compares these spans, it only anchors diagnostics to them). -/
def Ty.span : Ty → Span
  | .path sp _ _ => sp
  | .macTy sp => sp
  | .verbatim sp => sp
  | _ => 0

/-- `syn::GenericParam`. The const parameter's type and the type
parameter's default are elided (never read). -/
inductive GenericParam where
  | typeParam (ident : String) (bounds : List TypeParamBound)
  | lifetimeParam (lifetime : String) (bounds : List String)
  | constParam (ident : String)

def GenericParam.isConst : GenericParam → Bool
  | .constParam _ => true
  | _ => false

/-- `syn::Generics`: the angle tokens are modelled by Booleans (present or
absent); the where-clause payload is elided to its span. -/
structure Generics where
  ltToken : Bool
  params : List GenericParam
  gtToken : Bool
  whereClause : Option Span

/-- `syn::Generics::default()`: no tokens, no parameters, no where clause. -/
def Generics.default : Generics := ⟨false, [], false, none⟩

/-- The `HashMap<syn::Ident, syn::Type>` held by `Attrs`, as an association
list; insertion conses (so the most recent binding for a key wins, matching
`HashMap::insert` overwrite semantics) and lookup takes the first match. -/
abbrev AttrMap := List (String × Ty)

/-- `HashMap::get` for the attribute map. -/
def lookupTy : AttrMap → String → Option Ty
  | [], _ => none
  | (k, v) :: rest, id => if k == id then some v else lookupTy rest id

/-- `struct Attrs`: the parsed automock attribute configuration. -/
structure Attrs where
  attrs : AttrMap
  modname : Option String

/-- `Attrs::get_path` (with `self.attrs` passed explicitly): returns the
configured substitution for a two-segment, non-root-qualified `Self::X`
path, and `none` for every other path. -/
def get_path (m : AttrMap) (p : Path) : Option Ty :=
  if !p.leadingColon && (p.segments.length == 2) then
    match p.segments.head? with
    | some fst =>
        if fst.ident == "Self" then
          match p.segments.getLast? with
          | some lst => lookupTy m lst.ident
          | Option.none => none
        else none
    | Option.none => none
  else none

/-- `Attrs::substitute_type_param_bound`: a trait bound whose path resolves
in the configuration is rewritten to the resolved path; resolving to any
non-path type emits a diagnostic and leaves the bound unchanged. -/
def substitute_type_param_bound (m : AttrMap) :
    TypeParamBound → TypeParamBound × List Diagnostic
  | .traitBound sp p =>
      match get_path m p with
      | none => (.traitBound sp p, [])
      | some (.path _ _ tpPath) => (.traitBound sp tpPath, [])
      | some _ =>
          (.traitBound sp p,
           [⟨p.span, "Can only substitute paths for trait bounds"⟩])
  | .lifetime l => (.lifetime l, [])

/-- The bound-list loop of `substitute_type` for trait objects and
`impl Trait` types. -/
def substBoundList (m : AttrMap) :
    List TypeParamBound → List TypeParamBound × List Diagnostic
  | [] => ([], [])
  | b :: bs =>
      let r := substitute_type_param_bound m b
      let rs := substBoundList m bs
      (r.1 :: rs.1, r.2 ++ rs.2)

mutual

/-- `Attrs::substitute_type` (with `self.attrs` passed explicitly): the
recursive type rewriter, returning the rewritten type together with the
diagnostics it emitted. -/
def substTy (m : AttrMap) : Ty → Ty × List Diagnostic
  | .slice e =>
      let r := substTy m e
      (.slice r.1, r.2)
  | .array e =>
      let r := substTy m e
      (.array r.1, r.2)
  | .ptr e =>
      let r := substTy m e
      (.ptr r.1, r.2)
  | .reference e =>
      let r := substTy m e
      (.reference r.1, r.2)
  | .bareFn ins out =>
      let ri := substTyList m ins
      match out with
      | some o =>
          let ro := substTy m o
          (.bareFn ri.1 (some ro.1), ri.2 ++ ro.2)
      | none => (.bareFn ri.1 none, ri.2)
  | .tuple es =>
      let r := substTyList m es
      (.tuple r.1, r.2)
  | .path sp q p =>
      let dq : List Diagnostic :=
        if q then [⟨p.span, "QSelf is TODO"⟩] else []
      match get_path m p with
      | some newty => (newty, dq)
      | none => (.path sp q p, dq)
  | .traitObject bs =>
      let r := substBoundList m bs
      (.traitObject r.1, r.2)
  | .implTrait bs =>
      let r := substBoundList m bs
      (.implTrait r.1, r.2)
  | .paren e =>
      let r := substTy m e
      (.paren r.1, r.2)
  | .group e =>
      let r := substTy m e
      (.group r.1, r.2)
  | .macTy sp =>
      (.macTy sp,
       [⟨sp, "mockall_derive does not support this type when using associated types"⟩])
  | .verbatim sp =>
      (.verbatim sp,
       [⟨sp, "mockall_derive does not support this type when using associated types"⟩])
  | .infer => (.infer, [])
  | .never => (.never, [])

/-- The element loop of `substitute_type` for bare-fn inputs and tuples. -/
def substTyList (m : AttrMap) : List Ty → List Ty × List Diagnostic
  | [] => ([], [])
  | t :: ts =>
      let r := substTy m t
      let rs := substTyList m ts
      (r.1 :: rs.1, r.2 ++ rs.2)

end

/-- `Attrs::substitute_type` as a method on the configuration. -/
def Attrs.substitute_type (a : Attrs) (t : Ty) : Ty × List Diagnostic :=
  substTy a.attrs t

/-- `syn::FnArg`: a captured value parameter (pattern text, type), or any
other argument form (`self` receivers, inferred/ignored arguments),
collapsed to its span since the engine treats all of them alike. -/
inductive FnArg where
  | captured (pat : String) (ty : Ty)
  | other (sp : Span)

/-- `syn::FnDecl`: generics, inputs, optional variadic marker (its span),
optional return type (`None` models `ReturnType::Default`). -/
structure FnDecl where
  generics : Generics
  inputs : List FnArg
  variadic : Option Span
  output : Option Ty

/-- `syn::MethodSig` (ABI elided; the engine always copies it as `None`). -/
structure MethodSig where
  constness : Bool
  unsafety : Bool
  asyncness : Bool
  ident : String
  decl : FnDecl

/-- `syn::TraitItemType`: an associated-type item. -/
structure TraitItemType where
  ident : String
  bounds : List TypeParamBound
  default : Option Ty
  span : Span

/-- `syn::TraitItemMethod` (attribute list elided; the default body, never
read by the engine, is elided to its span). -/
structure TraitItemMethod where
  sig : MethodSig
  default : Option Span

/-- `syn::TraitItem`, restricted to the variants `substitute_types`
distinguishes; const/macro/verbatim trait items collapse to `otherItem`
("Nothing to do" in the source). -/
inductive TraitItem where
  | typeItem (t : TraitItemType)
  | methodItem (m : TraitItemMethod)
  | otherItem (sp : Span)

/-- `syn::Visibility` (restricted payload elided to a span). -/
inductive Visibility where
  | pub
  | restricted (sp : Span)
  | inherited

/-- `syn::ItemTrait`, restricted to the fields the engine reads or
constructs (attribute list, auto token and brace token elided). -/
structure ItemTrait where
  vis : Visibility
  unsafety : Bool
  ident : String
  generics : Generics
  supertraits : List TypeParamBound
  items : List TraitItem

/-- The per-argument step of `substitute_types` on a method: a captured
argument's type is substituted, every other argument is left alone. -/
def substFnArgs (m : AttrMap) : List FnArg → List FnArg × List Diagnostic
  | [] => ([], [])
  | .captured pat ty :: rest =>
      let r := substTy m ty
      let rs := substFnArgs m rest
      (.captured pat r.1 :: rs.1, r.2 ++ rs.2)
  | .other sp :: rest =>
      let rs := substFnArgs m rest
      (.other sp :: rs.1, rs.2)

/-- The per-item step of `Attrs::substitute_types`: an associated-type item
with a configured mapping gets that mapping as its default and its bounds
cleared; one without a mapping is reported; a method item has every
captured input type and (if present) its return type substituted. -/
def substTraitItem (m : AttrMap) : TraitItem → TraitItem × List Diagnostic
  | .typeItem tity =>
      match lookupTy m tity.ident with
      | some ty =>
          (.typeItem { tity with default := some ty, bounds := [] }, [])
      | none =>
          (.typeItem tity,
           [⟨tity.span, "Default value not given for associated type"⟩])
  | .methodItem meth =>
      let ri := substFnArgs m meth.sig.decl.inputs
      let ro : Option Ty × List Diagnostic :=
        match meth.sig.decl.output with
        | some ty =>
            let r := substTy m ty
            (some r.1, r.2)
        | none => (none, [])
      (.methodItem
        { meth with sig :=
          { meth.sig with decl :=
            { meth.sig.decl with inputs := ri.1, output := ro.1 } } },
       ri.2 ++ ro.2)
  | .otherItem sp => (.otherItem sp, [])

/-- The item loop of `Attrs::substitute_types`. -/
def substTraitItems (m : AttrMap) :
    List TraitItem → List TraitItem × List Diagnostic
  | [] => ([], [])
  | it :: rest =>
      let r := substTraitItem m it
      let rs := substTraitItems m rest
      (r.1 :: rs.1, r.2 ++ rs.2)

/-- `Attrs::substitute_types` (with `self.attrs` passed explicitly): clone
the trait and rewrite each of its items. -/
def substitute_types (m : AttrMap) (item : ItemTrait) :
    ItemTrait × List Diagnostic :=
  let r := substTraitItems m item.items
  ({ item with items := r.1 }, r.2)

/-- `Attrs::substitute_types` as a method on the configuration. -/
def Attrs.substitute_types (a : Attrs) (item : ItemTrait) :
    ItemTrait × List Diagnostic :=
  Automock.substitute_types a.attrs item

/-- The type-parameter closure of `filter_generics`: does some use-site
argument name exactly this type parameter (`Path::is_ident`)? -/
def genericArgMatchesTypeParam (id : String) : GenericArgument → Bool
  | .type (.path _ _ pth) => pth.is_ident id
  | _ => false

/-- The lifetime closure of `filter_generics`: is some use-site argument
exactly this lifetime? -/
def genericArgMatchesLifetime (lt : String) : GenericArgument → Bool
  | .lifetime l => l == lt
  | _ => false

/-- The per-parameter keep decision of `filter_generics`
(`args.iter().filter(..).nth(0).is_some()` is `List.any`); const
parameters are always dropped. -/
def keepParam (args : List GenericArgument) : GenericParam → Bool
  | .typeParam id _ => args.any (genericArgMatchesTypeParam id)
  | .lifetimeParam lt _ => args.any (genericArgMatchesLifetime lt)
  | .constParam _ => false

/-- The trailing `if params.is_empty()` of `filter_generics`: an empty kept
list yields `Generics::default()` (no angle tokens at all), a non-empty one
yields a bracketed list with no where clause. -/
def mkFiltered (ps : List GenericParam) : Generics :=
  if ps.isEmpty then Generics.default
  else ⟨true, ps, true, none⟩

/-- `filter_generics`: keep only the generic parameters referenced by the
use-site path arguments.  Parenthesized arguments and where clauses are
reported; the where-clause path returns the input generics unchanged
(`return g.clone()`). -/
def filter_generics (g : Generics) (path_args : PathArguments) :
    Generics × List Diagnostic :=
  match path_args with
  | .none => (mkFiltered [], [])
  | .parenthesized sp =>
      (mkFiltered [], [⟨sp, "Mockall does not support mocking Fn objects"⟩])
  | .angleBracketed args =>
      match g.whereClause with
      | some wsp =>
          (g, [⟨wsp, "Mockall does not yet support where clauses here"⟩])
      | none => (mkFiltered (g.params.filter (keepParam args)), [])

/-- `find_ident_from_path`: a single-segment path yields its identifier and
arguments; any other path is reported and a placeholder
(`Ident::new("", ..)`, no arguments) is returned and execution continues. -/
def find_ident_from_path (p : Path) : (String × PathArguments) × List Diagnostic :=
  if p.segments.length ≠ 1 then
    (("", PathArguments.none),
     [⟨p.span, "mockall_derive only supports structs defined in the current module"⟩])
  else
    let seg := p.segments.getLastD ⟨"", .none⟩
    ((seg.ident, seg.arguments), [])

/-- `syn::ImplItem`, restricted to the three classes `mock_impl`
distinguishes: const items (silently dropped), method items (kept — only
the signature is read), everything else (reported). -/
inductive ImplItem where
  | constItem (sp : Span)
  | methodItem (sig : MethodSig) (sp : Span)
  | otherItem (sp : Span)

/-- `syn::ItemImpl`, restricted to the fields `mock_impl` reads
(attribute list, defaultness and impl token elided). -/
structure ItemImpl where
  unsafety : Bool
  generics : Generics
  traitPath : Option Path
  selfTy : Ty
  items : List ImplItem

/-- The `Mock` handoff payload assembled for the external builder
collaborator (`Mock { vis, name, generics, methods, traits }`). -/
structure Mock where
  vis : Visibility
  name : String
  generics : Generics
  methods : List TraitItemMethod
  traits : List ItemTrait

/-- All method signatures a `Mock` payload exposes: its direct methods plus
the methods of every synthetic trait it implements. -/
def Mock.methodSigs (mo : Mock) : List MethodSig :=
  mo.methods.map TraitItemMethod.sig ++
    mo.traits.flatMap (fun tr => tr.items.filterMap fun it =>
      match it with
      | .methodItem tm => some tm.sig
      | _ => none)

/-- The item enumeration of `mock_impl` (`items.iter().filter_map(..)`):
const items are dropped with no diagnostic, methods become bodyless
`TraitItemMethod`s, any other item kind is reported and dropped. -/
def collect_methods : List ImplItem → List TraitItemMethod × List Diagnostic
  | [] => ([], [])
  | .constItem _ :: rest => collect_methods rest
  | .methodItem sig _ :: rest =>
      let rs := collect_methods rest
      (⟨sig, none⟩ :: rs.1, rs.2)
  | .otherItem sp :: rest =>
      let rs := collect_methods rest
      (rs.1, ⟨sp, "This impl item is not yet supported by MockAll"⟩ :: rs.2)

/-- `mock_impl`: synthesize the mock payload for an impl block.  A self
type that is not a path type is reported and nothing is generated
(`return TokenStream::new()`, modelled as `none`).  Otherwise the payload
is built — with forced public visibility — and handed off
(`mock.gen()`, the external builder). -/
def mock_impl (ii : ItemImpl) : Option Mock × List Diagnostic :=
  match ii.selfTy with
  | .path _ _ tp =>
      let nr := find_ident_from_path tp
      let mr := collect_methods ii.items
      match ii.traitPath with
      | some path =>
          let path_args := (path.segments.getLastD ⟨"", .none⟩).arguments
          let tir := find_ident_from_path path
          let fg := filter_generics ii.generics path_args
          let trait_ : ItemTrait :=
            { vis := .pub, unsafety := ii.unsafety, ident := tir.1.1,
              generics := fg.1, supertraits := [],
              items := mr.1.map TraitItem.methodItem }
          (some { vis := .pub, name := nr.1.1, generics := ii.generics,
                  methods := [], traits := [trait_] },
           nr.2 ++ mr.2 ++ tir.2 ++ fg.2)
      | none =>
          (some { vis := .pub, name := nr.1.1, generics := ii.generics,
                  methods := mr.1, traits := [] },
           nr.2 ++ mr.2)
  | x =>
      (none,
       [⟨x.span, "mockall_derive only supports mocking traits and structs"⟩])

/-- One element of a generated module body.  The token rendering of the
expectation store / wrapper / `expect_` accessor triple produced by
`mock_function` is delegated to external collaborators (`quote!`,
`method_types`, `derefify` in the crate root), so it is kept abstract as
`mockedFn`; copied-through items keep only their source span. -/
inductive BodyElem where
  | mockedFn (ident : String)
  | verbatimStatic (sp : Span)
  | verbatimTypeItem (sp : Span)
  | verbatimConst (sp : Span)
  | verbatimTraitAlias (sp : Span)

/-- A generated `mod` produced by the extern-block and module strategies:
its name, its body elements, and the function stores its `checkpoint`
function verifies, in declaration order. -/
structure GeneratedMod where
  modname : String
  body : List BodyElem
  checkpoints : List String

/-- `mock_function`: a variadic signature is reported and nothing is
generated; a non-captured argument is reported ("Should be unreachable");
otherwise the store/wrapper/accessor triple for `ident` is emitted.
Visibility and the const/unsafe/async qualifiers are threaded through to
the rendered tokens by collaborators outside this core and are elided. -/
def mock_function (ident : String) (decl : FnDecl) :
    List BodyElem × List Diagnostic :=
  match decl.variadic with
  | some sp =>
      ([], [⟨sp, "Mockall does not support variadic extern functions"⟩])
  | none =>
      let argDiags := decl.inputs.filterMap fun a =>
        match a with
        | .captured _ _ => none
        | .other sp => some ⟨sp, "Should be unreachable for normal Rust code"⟩
      ([.mockedFn ident], argDiags)

/-- `syn::ForeignItem`, as matched by `mock_foreign`. -/
inductive ForeignItem where
  | fnItem (ident : String) (decl : FnDecl) (sp : Span)
  | staticItem (sp : Span)
  | typeItem (sp : Span)
  | macItem (sp : Span)
  | verbatimItem (sp : Span)

/-- `syn::ItemForeignMod` (ABI elided). -/
structure ItemForeignMod where
  items : List ForeignItem

/-- The item loop of `mock_foreign`: body elements, checkpointed function
names (in declaration order), diagnostics.  `mock_foreign_function` forces
the `unsafe` qualifier, which is elided here (see `mock_function`). -/
def mock_foreign_items :
    List ForeignItem → List BodyElem × List String × List Diagnostic
  | [] => ([], [], [])
  | .fnItem id decl _ :: rest =>
      let f := mock_function id decl
      let rs := mock_foreign_items rest
      (f.1 ++ rs.1, id :: rs.2.1, f.2 ++ rs.2.2)
  | .staticItem sp :: rest =>
      let rs := mock_foreign_items rest
      (.verbatimStatic sp :: rs.1, rs.2.1, rs.2.2)
  | .typeItem sp :: rest =>
      let rs := mock_foreign_items rest
      (.verbatimTypeItem sp :: rs.1, rs.2.1, rs.2.2)
  | .macItem sp :: rest =>
      let rs := mock_foreign_items rest
      (rs.1, rs.2.1,
       ⟨sp, "Mockall does not support macros in this context"⟩ :: rs.2.2)
  | .verbatimItem sp :: rest =>
      let rs := mock_foreign_items rest
      (rs.1, rs.2.1, ⟨sp, "Content unrecognized by Mockall"⟩ :: rs.2.2)

/-- `mock_foreign`: `let modname = attrs.modname.unwrap();` panics — the
process aborts with no output — when the configuration set no module
rename identifier; otherwise the mock module is assembled. -/
def mock_foreign (attrs : Attrs) (fm : ItemForeignMod) :
    Option GeneratedMod × List Diagnostic :=
  match attrs.modname with
  | none => (none, [])
  | some modname =>
      let r := mock_foreign_items fm.items
      (some ⟨modname, r.1, r.2.1⟩, r.2.2)

/-- `syn::Item` inside a module body, as matched by `mock_module`.  The
payload of unsupported/ignored kinds is elided to a span; the engine never
recurses into nested scopes. -/
inductive ModItem where
  | externCrate (sp : Span)
  | useDecl (sp : Span)
  | implBlock (sp : Span)
  | staticDecl (sp : Span)
  | constDecl (sp : Span)
  | fnDecl (ident : String) (decl : FnDecl)
  | nestedMod (sp : Span)
  | foreignModDecl (sp : Span)
  | structDecl (sp : Span)
  | enumDecl (sp : Span)
  | unionDecl (sp : Span)
  | traitDecl (sp : Span)
  | typeAlias (sp : Span)
  | existentialDecl (sp : Span)
  | traitAlias (sp : Span)
  | macItem (sp : Span)
  | mac2Item (sp : Span)
  | verbatimItem (sp : Span)

/-- `syn::ItemMod`: identifier, and optional braced content (brace span
plus items). -/
structure ItemMod where
  ident : String
  identSpan : Span
  content : Option (Span × List ModItem)

/-- The item loop of `mock_module`: body elements, checkpointed function
names, diagnostics.  `use`/`extern crate`/impl items are ignored; statics,
consts, type aliases and trait aliases are copied through; functions are
mocked (`mock_native_function` passes the source qualifiers through,
elided here); nested scopes, existential types, macros and verbatim items
are reported. -/
def mock_module_items :
    List ModItem → List BodyElem × List String × List Diagnostic
  | [] => ([], [], [])
  | .externCrate _ :: rest => mock_module_items rest
  | .useDecl _ :: rest => mock_module_items rest
  | .implBlock _ :: rest => mock_module_items rest
  | .staticDecl sp :: rest =>
      let rs := mock_module_items rest
      (.verbatimStatic sp :: rs.1, rs.2.1, rs.2.2)
  | .constDecl sp :: rest =>
      let rs := mock_module_items rest
      (.verbatimConst sp :: rs.1, rs.2.1, rs.2.2)
  | .fnDecl id decl :: rest =>
      let f := mock_function id decl
      let rs := mock_module_items rest
      (f.1 ++ rs.1, id :: rs.2.1, f.2 ++ rs.2.2)
  | .nestedMod sp :: rest =>
      let rs := mock_module_items rest
      (rs.1, rs.2.1,
       ⟨sp, "Mockall does not yet support deriving nested mocks"⟩ :: rs.2.2)
  | .foreignModDecl sp :: rest =>
      let rs := mock_module_items rest
      (rs.1, rs.2.1,
       ⟨sp, "Mockall does not yet support deriving nested mocks"⟩ :: rs.2.2)
  | .structDecl sp :: rest =>
      let rs := mock_module_items rest
      (rs.1, rs.2.1,
       ⟨sp, "Mockall does not yet support deriving nested mocks"⟩ :: rs.2.2)
  | .enumDecl sp :: rest =>
      let rs := mock_module_items rest
      (rs.1, rs.2.1,
       ⟨sp, "Mockall does not yet support deriving nested mocks"⟩ :: rs.2.2)
  | .unionDecl sp :: rest =>
      let rs := mock_module_items rest
      (rs.1, rs.2.1,
       ⟨sp, "Mockall does not yet support deriving nested mocks"⟩ :: rs.2.2)
  | .traitDecl sp :: rest =>
      let rs := mock_module_items rest
      (rs.1, rs.2.1,
       ⟨sp, "Mockall does not yet support deriving nested mocks"⟩ :: rs.2.2)
  | .typeAlias sp :: rest =>
      let rs := mock_module_items rest
      (.verbatimTypeItem sp :: rs.1, rs.2.1, rs.2.2)
  | .existentialDecl sp :: rest =>
      let rs := mock_module_items rest
      (rs.1, rs.2.1,
       ⟨sp, "Mockall does not yet support named existential types"⟩ :: rs.2.2)
  | .traitAlias sp :: rest =>
      let rs := mock_module_items rest
      (.verbatimTraitAlias sp :: rs.1, rs.2.1, rs.2.2)
  | .macItem sp :: rest =>
      let rs := mock_module_items rest
      (rs.1, rs.2.1,
       ⟨sp, "Mockall does not support macros in this context"⟩ :: rs.2.2)
  | .mac2Item sp :: rest =>
      let rs := mock_module_items rest
      (rs.1, rs.2.1,
       ⟨sp, "Mockall does not support macros in this context"⟩ :: rs.2.2)
  | .verbatimItem sp :: rest =>
      let rs := mock_module_items rest
      (rs.1, rs.2.1, ⟨sp, "Content unrecognized by Mockall"⟩ :: rs.2.2)

/-- `mock_module`: the generated module is named by prefixing the source
module's identifier with `mock_`; a bodyless module contributes no items.
Note the function receives no configuration at all. -/
def mock_module (m : ItemMod) : GeneratedMod × List Diagnostic :=
  let items := match m.content with
    | some (_, its) => its
    | none => []
  let r := mock_module_items items
  (⟨"mock_" ++ m.ident, r.1, r.2.1⟩, r.2.2)

/-- `mock_trait`: substitute associated types throughout the trait, then
hand off a payload with the trait's own visibility and generics, no direct
methods, and the synthesized trait as the single trait to implement. -/
def mock_trait (attrs : Attrs) (item : ItemTrait) : Mock × List Diagnostic :=
  let r := attrs.substitute_types item
  ({ vis := item.vis, name := item.ident, generics := item.generics,
     methods := [], traits := [r.1] }, r.2)

/-- `enum Attr`: one parsed automock attribute directive — `mod name;`
(carrying the optional brace span of an illegal body) or
`type Ident = Type;` (whose right-hand side may be missing). -/
inductive Attr where
  | modAttr (ident : String) (content : Option Span)
  | typeAttr (ident : String) (dflt : Option Ty) (sp : Span)

/-- The directive loop of `impl Parse for Attrs`: a `mod` directive with a
body is reported but its identifier is still recorded; a `type` directive
without a default is reported and skipped. -/
def parse_attrs_go : List Attr → Attrs → List Diagnostic → Attrs × List Diagnostic
  | [], acc, ds => (acc, ds)
  | .modAttr id content :: rest, acc, ds =>
      let ds' := ds ++ (match content with
        | some brsp =>
            [⟨brsp, "mod name attributes must have the form \"mod my_name;\""⟩]
        | none => [])
      parse_attrs_go rest { acc with modname := some id } ds'
  | .typeAttr id dflt sp :: rest, acc, ds =>
      match dflt with
      | some ty =>
          parse_attrs_go rest { acc with attrs := (id, ty) :: acc.attrs } ds
      | none =>
          parse_attrs_go rest acc
            (ds ++ [⟨sp, "automock type attributes must have a default value"⟩])

/-- `impl Parse for Attrs`, starting from the empty configuration.  The
token-level lexing of each directive is the external parser's job; the
input is the parsed directive sequence. -/
def parse_attrs (l : List Attr) : Attrs × List Diagnostic :=
  parse_attrs_go l ⟨[], none⟩ []

/-- `syn::Item` at the dispatch entry point, restricted to the four
supported kinds plus a catch-all. -/
inductive Item where
  | implItem (ii : ItemImpl)
  | foreignModItem (fm : ItemForeignMod)
  | modItem (m : ItemMod)
  | traitItem (tr : ItemTrait)
  | otherItem (sp : Span)

/-- What one `do_automock` invocation emits: a builder handoff payload, a
generated module, or the empty token stream. -/
inductive Output where
  | mock (m : Mock)
  | genMod (g : GeneratedMod)
  | empty

/-- `do_automock`: parse the configuration, classify the declaration,
route to the matching strategy.  A `none` result models a process abort
(panic); `Output.empty` models an emitted empty token stream. -/
def do_automock (attrList : List Attr) (item : Item) :
    Option Output × List Diagnostic :=
  let a := parse_attrs attrList
  match item with
  | .implItem ii =>
      let r := mock_impl ii
      (some (match r.1 with
             | some mo => .mock mo
             | none => .empty), a.2 ++ r.2)
  | .foreignModItem fm =>
      let r := mock_foreign a.1 fm
      (r.1.map .genMod, a.2 ++ r.2)
  | .modItem m =>
      let r := mock_module m
      (some (.genMod r.1), a.2 ++ r.2)
  | .traitItem tr =>
      let r := mock_trait a.1 tr
      (some (.mock r.1), a.2 ++ r.2)
  | .otherItem sp =>
      (some .empty,
       a.2 ++ [⟨sp, "#[automock] does not support this item type"⟩])

/-! ### Spec-side definitions and concrete inputs used by the theorems -/

/-- The spec's description (§4.2) of when a named-path type is substituted,
transcribed for comparison with the implementation's `get_path`: the path
has exactly two segments, no leading-root qualifier, its first segment is
the reserved self-identifier, and the second segment's identifier is
mapped by the configuration. -/
def specSelfPathSubstitution (m : AttrMap) (p : Path) : Option Ty :=
  match p.segments with
  | [s1, s2] =>
      if !p.leadingColon && s1.ident == "Self" then lookupTy m s2.ident
      else none
  | _ => none

/-- Concrete type `u32`. -/
def u32Ty : Ty := .path 0 false (.mk false [.mk "u32" .none] 0)

/-- Concrete type `i64`. -/
def i64Ty : Ty := .path 0 false (.mk false [.mk "i64" .none] 0)

/-- Concrete type `Self::T`. -/
def selfTTy : Ty := .path 0 false (.mk false [.mk "Self" .none, .mk "T" .none] 0)

/-- Concrete declaration `fn foo(x: u32) -> i64`. -/
def fooFnDecl : FnDecl := ⟨Generics.default, [.captured "x" u32Ty], none, some i64Ty⟩

/-- Concrete extern block `extern "C" { fn foo(x: u32) -> i64; }`. -/
def externBlockFoo : ItemForeignMod := ⟨[.fnItem "foo" fooFnDecl 0]⟩

/-- A `Copy` trait bound. -/
def copyBound : TypeParamBound := .traitBound 0 (.mk false [.mk "Copy" .none] 0)

/-- A `Clone` trait bound. -/
def cloneBound : TypeParamBound := .traitBound 0 (.mk false [.mk "Clone" .none] 0)

/-- Concrete generics `<A: Copy, B: Clone>` (the spec's §8 filtering
scenario), with a const parameter appended to exercise the const rule. -/
def abGenerics : Generics :=
  ⟨true, [.typeParam "A" [copyBound], .typeParam "B" [cloneBound],
          .constParam "N"], true, none⟩

/-- Concrete use-site arguments `<A>`. -/
def aArgs : List GenericArgument :=
  [.type (.path 0 false (.mk false [.mk "A" .none] 0))]

/-- Concrete generics `<>` carrying a where clause: zero parameters but
angle-bracket tokens present (`impl<> Foo for Bar where ..`). -/
def whereOnlyGenerics : Generics := ⟨true, [], true, some 3⟩

/-- Concrete generics `<const N: usize>` without a where clause. -/
def constOnlyGenerics : Generics := ⟨true, [.constParam "N"], true, none⟩

/-- Concrete associated-type item `type T: Clone;` (no default). -/
def assocT : TraitItemType := ⟨"T", [cloneBound], none, 5⟩

/-- Concrete method `fn foo(&self, x: Self::T) -> Self::T;`. -/
def fooMeth : TraitItemMethod :=
  ⟨⟨false, false, false, "foo",
    ⟨Generics.default, [.other 9, .captured "x" selfTTy], none, some selfTTy⟩⟩,
   none⟩

/-- Concrete trait `trait A { type T: Clone; fn foo(&self, x: Self::T) -> Self::T; }`. -/
def traitWithAssoc : ItemTrait :=
  ⟨.inherited, false, "A", Generics.default, [],
   [.typeItem assocT, .methodItem fooMeth]⟩

/-- The configuration parsed from `type T = u32;`. -/
def attrsTu32 : Attrs := ⟨[("T", u32Ty)], none⟩

/-- The empty configuration. -/
def emptyAttrs : Attrs := ⟨[], none⟩

/-- Concrete two-segment self-type path `outer::Inner`. -/
def multiSegPath : Path := .mk false [.mk "outer" .none, .mk "Inner" .none] 7

/-- Concrete method signature `fn foo(x: u32) -> i64`. -/
def fooSig : MethodSig := ⟨false, false, false, "foo", fooFnDecl⟩

/-- Concrete impl block `impl outer::Inner { fn foo(x: u32) -> i64 {..} }`
whose self-type path spans more than one segment. -/
def implMultiSeg : ItemImpl :=
  ⟨false, Generics.default, none, .path 0 false multiSegPath,
   [.methodItem fooSig 1]⟩

/-- Concrete impl block `impl Simple { const C: .. ; fn foo(..); <unsupported> }`
with a single-segment self type, exercising all three item classes. -/
def implSimple : ItemImpl :=
  ⟨false, Generics.default, none,
   .path 0 false (.mk false [.mk "Simple" .none] 0),
   [.constItem 2, .methodItem fooSig 1, .otherItem 4]⟩

/-! ### Helper lemmas -/

/-- `get_path` decides exactly the spec's substitution condition. -/
lemma get_path_eq_spec (m : AttrMap) (p : Path) :
    get_path m p = specSelfPathSubstitution m p := by
  obtain ⟨lc, segs, psp⟩ := p
  rcases segs with _ | ⟨s1, _ | ⟨s2, _ | ⟨s3, rest⟩⟩⟩ <;>
    cases lc <;>
      simp [get_path, specSelfPathSubstitution, Path.leadingColon,
            Path.segments, List.getLast?]

/-- `Path::is_ident` characterized: the path is exactly the bare
identifier. -/
lemma path_is_ident_iff (p : Path) (id : String) :
    p.is_ident id = true ↔ ∃ psp, p = .mk false [.mk id .none] psp := by
  obtain ⟨lc, segs, psp⟩ := p
  constructor
  · intro h
    rcases segs with _ | ⟨⟨sid, sargs⟩, _ | ⟨s2, rest⟩⟩ <;>
      cases lc <;>
        simp [Path.is_ident, Path.leadingColon, Path.segments,
              PathSegment.ident, PathSegment.arguments,
              PathArguments.isNone] at h
    cases sargs <;> simp_all
  · rintro ⟨psp', heq⟩
    cases heq
    simp [Path.is_ident, Path.leadingColon, Path.segments,
          PathSegment.ident, PathSegment.arguments, PathArguments.isNone]

/-- The type-parameter closure matches exactly the arguments that are a
path type over the bare parameter identifier. -/
lemma genericArgMatchesTypeParam_iff (id : String) (ga : GenericArgument) :
    genericArgMatchesTypeParam id ga = true ↔
      ∃ tsp q psp, ga = .type (.path tsp q (.mk false [.mk id .none] psp)) := by
  cases ga with
  | lifetime l => simp [genericArgMatchesTypeParam]
  | other => simp [genericArgMatchesTypeParam]
  | type t =>
      cases t <;> simp [genericArgMatchesTypeParam, path_is_ident_iff]

/-- The lifetime closure matches exactly that lifetime argument. -/
lemma genericArgMatchesLifetime_iff (lt : String) (ga : GenericArgument) :
    genericArgMatchesLifetime lt ga = true ↔ ga = .lifetime lt := by
  cases ga <;> simp [genericArgMatchesLifetime]

/-- The parameters of the rebuilt generics are the kept list itself. -/
lemma mkFiltered_params (ps : List GenericParam) : (mkFiltered ps).params = ps := by
  rw [mkFiltered]
  split
  · next h => simp_all [Generics.default, List.isEmpty_iff]
  · rfl

/-- On the supported path (no where clause, angle-bracketed arguments) the
filter's parameter list is a `List.filter`. -/
lemma filter_generics_params_eq (g : Generics) (A : List GenericArgument)
    (hw : g.whereClause = none) :
    (filter_generics g (.angleBracketed A)).1.params
      = g.params.filter (keepParam A) := by
  simp [filter_generics, hw, mkFiltered_params]

/-- The keep decision, characterized in the spec's vocabulary. -/
lemma keepParam_iff (A : List GenericArgument) (pr : GenericParam) :
    keepParam A pr = true ↔
      ((∃ id bs, pr = .typeParam id bs ∧
          ∃ ga ∈ A, ∃ tsp q psp,
            ga = .type (.path tsp q (.mk false [.mk id .none] psp)))
       ∨ (∃ lt bs, pr = .lifetimeParam lt bs ∧ GenericArgument.lifetime lt ∈ A)) := by
  cases pr with
  | typeParam id bs =>
      simp [keepParam, List.any_eq_true, genericArgMatchesTypeParam_iff]
  | lifetimeParam lt bs =>
      simp [keepParam, List.any_eq_true, genericArgMatchesLifetime_iff]
  | constParam cid => simp [keepParam]

/-- Value part of the trait-item loop: an elementwise map. -/
lemma substTraitItems_fst (m : AttrMap) (l : List TraitItem) :
    (substTraitItems m l).1 = l.map (fun it => (substTraitItem m it).1) := by
  induction l with
  | nil => rfl
  | cons it rest ih => simp [substTraitItems, ih]

/-- Value part of the argument loop: captured types substituted, the rest
untouched. -/
lemma substFnArgs_fst (m : AttrMap) (l : List FnArg) :
    (substFnArgs m l).1 = l.map (fun fa => match fa with
      | .captured pat ty => .captured pat (substTy m ty).1
      | .other sp => .other sp) := by
  induction l with
  | nil => rfl
  | cons fa rest ih => cases fa <;> simp [substFnArgs, ih]

/-- An unmapped associated-type item contributes its diagnostic to the
trait-item loop. -/
lemma substTraitItems_diag_mem (m : AttrMap) (tity : TraitItemType)
    (hnone : lookupTy m tity.ident = none) (l : List TraitItem)
    (hl : TraitItem.typeItem tity ∈ l) :
    (⟨tity.span, "Default value not given for associated type"⟩ : Diagnostic)
      ∈ (substTraitItems m l).2 := by
  induction l with
  | nil => cases hl
  | cons it rest ih =>
      rcases List.mem_cons.mp hl with heq | hmem
      · subst heq
        simp [substTraitItems, substTraitItem, hnone]
      · simp only [substTraitItems, List.mem_append]
        exact Or.inr (ih hmem)

/-- Kept signatures of the impl item enumeration. -/
lemma collect_methods_sigs (l : List ImplItem) :
    (collect_methods l).1.map TraitItemMethod.sig
      = l.filterMap (fun it => match it with
          | .methodItem s _ => some s
          | _ => none) := by
  induction l with
  | nil => rfl
  | cons it rest ih => cases it <;> simp [collect_methods, ih]

/-- Diagnostics of the impl item enumeration: exactly one per unsupported
item, none for const items or methods. -/
lemma collect_methods_diags (l : List ImplItem) :
    (collect_methods l).2
      = l.filterMap (fun it => match it with
          | .otherItem sp =>
              some (⟨sp, "This impl item is not yet supported by MockAll"⟩ : Diagnostic)
          | _ => none) := by
  induction l with
  | nil => rfl
  | cons it rest ih => cases it <;> simp [collect_methods, ih]

/-- Extracting signatures back out of a wrapped method-item list. -/
lemma methodItems_sigs (l : List TraitItemMethod) :
    (l.map TraitItem.methodItem).filterMap (fun it => match it with
      | .methodItem tm => some tm.sig
      | _ => none) = l.map TraitItemMethod.sig := by
  induction l with
  | nil => rfl
  | cons tm rest ih => simp [ih]

/-! ### Claim theorems -/

/-- C9: for every configuration, type substitution applied to an inferred
type or a never type returns the type unchanged (and emits no
diagnostic) — substitution is the identity on these terminal kinds. -/
theorem substitute_type_terminal_identity (a : Attrs) :
    a.substitute_type .infer = (.infer, []) ∧
    a.substitute_type .never = (.never, []) := by
  constructor <;> simp [Attrs.substitute_type, substTy]

/-- C2: type substitution replaces a named-path type with the configured
concrete type exactly when the path has exactly two segments, no
leading-root qualifier, its first segment is `Self` and its second
segment's identifier is mapped by the configuration; every other
named-path type is returned unchanged. -/
theorem substitute_type_self_path_spec (a : Attrs) (sp : Span) (q : Bool)
    (p : Path) :
    (a.substitute_type (.path sp q p)).1 =
      match specSelfPathSubstitution a.attrs p with
      | some ty => ty
      | none => .path sp q p := by
  rw [Attrs.substitute_type, ← get_path_eq_spec]
  cases hg : get_path a.attrs p <;> simp [substTy, hg]

/-- C4 (refuted — code bug): processing an extern-style function block with
a configuration that sets no module-rename identifier does not produce a
diagnostic; `mock_foreign` evaluates `attrs.modname.unwrap()` and the
process aborts (modelled as the `none` output). -/
theorem automock_extern_without_modname_panics :
    (do_automock [] (.foreignModItem externBlockFoo)).1 = none ∧
    (do_automock [] (.foreignModItem externBlockFoo)).2 = [] := ⟨rfl, rfl⟩

/-- C10: the module strategy names its output by prefixing the source
module's identifier with `mock_`, and the parsed configuration has no
effect on module mocks: dispatching the same module under any two
attribute streams yields the same generated output, and the module-rename
identifier is ignored by the trait strategy as well. -/
theorem mock_module_name_and_attr_independence (m : ItemMod)
    (al1 al2 : List Attr) :
    (mock_module m).1.modname = "mock_" ++ m.ident
  ∧ (do_automock al1 (.modItem m)).1 = (do_automock al2 (.modItem m)).1
  ∧ ∀ (mp : AttrMap) (mn : Option String) (tr : ItemTrait),
      mock_trait ⟨mp, mn⟩ tr = mock_trait ⟨mp, none⟩ tr :=
  ⟨rfl, rfl, fun _ _ _ => rfl⟩

/-- C1: for generics without a where clause and an angle-bracketed argument
list, the filter returns an order-preserving subsequence of the non-const
parameters; a type parameter appears iff some argument is a path type over
exactly that bare identifier, a lifetime parameter appears iff some
argument is exactly that lifetime, and no const parameter ever appears. -/
theorem filter_generics_sound (g : Generics) (A : List GenericArgument)
    (hw : g.whereClause = none) :
    ((filter_generics g (.angleBracketed A)).1.params.Sublist
        (g.params.filter (fun pr => !pr.isConst)))
  ∧ (∀ pr, pr ∈ (filter_generics g (.angleBracketed A)).1.params ↔
        pr ∈ g.params ∧
          ((∃ id bs, pr = .typeParam id bs ∧
              ∃ ga ∈ A, ∃ tsp q psp,
                ga = .type (.path tsp q (.mk false [.mk id .none] psp)))
           ∨ (∃ lt bs, pr = .lifetimeParam lt bs ∧
                GenericArgument.lifetime lt ∈ A)))
  ∧ (∀ cid, GenericParam.constParam cid ∉
        (filter_generics g (.angleBracketed A)).1.params) := by
  rw [filter_generics_params_eq g A hw]
  refine ⟨List.monotone_filter_right _ ?_, ?_, ?_⟩
  · intro pr hk
    cases pr <;> simp_all [keepParam, GenericParam.isConst]
  · intro pr
    rw [List.mem_filter, keepParam_iff]
  · intro cid hmem
    rw [List.mem_filter] at hmem
    simpa [keepParam] using hmem.2

/-- Witness for C1 at the spec's §8 scenario `<A: Copy, B: Clone>` filtered
against `<A>` (with a const parameter appended). -/
theorem filter_generics_sound_witness :
    abGenerics.whereClause = none
  ∧ (((filter_generics abGenerics (.angleBracketed aArgs)).1.params.Sublist
        (abGenerics.params.filter (fun pr => !pr.isConst)))
  ∧ (∀ pr, pr ∈ (filter_generics abGenerics (.angleBracketed aArgs)).1.params ↔
        pr ∈ abGenerics.params ∧
          ((∃ id bs, pr = .typeParam id bs ∧
              ∃ ga ∈ aArgs, ∃ tsp q psp,
                ga = .type (.path tsp q (.mk false [.mk id .none] psp)))
           ∨ (∃ lt bs, pr = .lifetimeParam lt bs ∧
                GenericArgument.lifetime lt ∈ aArgs)))
  ∧ (∀ cid, GenericParam.constParam cid ∉
        (filter_generics abGenerics (.angleBracketed aArgs)).1.params)) :=
  ⟨rfl, filter_generics_sound abGenerics aArgs rfl⟩

/-- C7 counterexample: generics `<>` with a where clause and zero
parameters, filtered against angle-bracketed arguments — no parameter is
kept, yet the result keeps its angle-bracket tokens (the early
`return g.clone()` on the where-clause error path), so it is a bracketed
list with zero parameters, not the sentinel. -/
theorem filter_generics_where_clause_keeps_brackets :
    ((filter_generics whereOnlyGenerics (.angleBracketed [])).1.params = [])
  ∧ ((filter_generics whereOnlyGenerics (.angleBracketed [])).1.ltToken = true)
  ∧ (Generics.default.ltToken = false) := ⟨rfl, rfl, rfl⟩

/-- C7 (amended): when no parameter is kept, the filter returns the empty
generic-parameter-list sentinel with no angle-bracket tokens — provided
the where-clause error path is not taken (no where clause, or arguments
not angle-bracketed); on that path the input generics are returned
unchanged. -/
theorem filter_generics_empty_sentinel (g : Generics) (pa : PathArguments)
    (h : g.whereClause = none ∨ ∀ args, pa ≠ .angleBracketed args)
    (hempty : (filter_generics g pa).1.params = []) :
    (filter_generics g pa).1 = Generics.default := by
  cases pa with
  | none => simp [filter_generics, mkFiltered]
  | parenthesized sp => simp [filter_generics, mkFiltered]
  | angleBracketed args =>
      rcases h with hw | hne
      · rw [filter_generics_params_eq g args hw] at hempty
        have : filter_generics g (.angleBracketed args)
            = (mkFiltered (g.params.filter (keepParam args)), []) := by
          simp [filter_generics, hw]
        rw [this, hempty]
        simp [mkFiltered]
      · exact absurd rfl (hne args)

/-- Witness for the amended C7: `<const N: usize>` filtered against `<>`
keeps nothing and yields the sentinel. -/
theorem filter_generics_empty_sentinel_witness :
    (constOnlyGenerics.whereClause = none ∨
      ∀ args, PathArguments.angleBracketed [] ≠ .angleBracketed args)
  ∧ (filter_generics constOnlyGenerics (.angleBracketed [])).1.params = []
  ∧ (filter_generics constOnlyGenerics (.angleBracketed [])).1 = Generics.default :=
  ⟨Or.inl rfl, rfl,
   filter_generics_empty_sentinel constOnlyGenerics (.angleBracketed [])
     (Or.inl rfl) rfl⟩

/-- C3: whole-trait substitution of a trait containing an associated-type
item whose identifier has no configuration entry emits the
missing-default diagnostic (the failure signal of this engine) anchored at
that item. -/
theorem substitute_types_unmapped_assoc_fails (a : Attrs) (tr : ItemTrait)
    (tity : TraitItemType)
    (hmem : TraitItem.typeItem tity ∈ tr.items)
    (hnone : lookupTy a.attrs tity.ident = none) :
    (⟨tity.span, "Default value not given for associated type"⟩ : Diagnostic)
      ∈ (a.substitute_types tr).2 := by
  have : (a.substitute_types tr).2 = (substTraitItems a.attrs tr.items).2 := rfl
  rw [this]
  exact substTraitItems_diag_mem a.attrs tity hnone tr.items hmem

/-- Witness for C3: the empty configuration applied to
`trait A { type T: Clone; .. }`. -/
theorem substitute_types_unmapped_assoc_fails_witness :
    TraitItem.typeItem assocT ∈ traitWithAssoc.items
  ∧ lookupTy emptyAttrs.attrs assocT.ident = none
  ∧ (⟨assocT.span, "Default value not given for associated type"⟩ : Diagnostic)
      ∈ (emptyAttrs.substitute_types traitWithAssoc).2 :=
  ⟨List.Mem.head _, rfl,
   substitute_types_unmapped_assoc_fails emptyAttrs traitWithAssoc assocT
     (List.Mem.head _) rfl⟩

/-- C6: whole-trait substitution maps each item in place: an
associated-type item with a configured mapping gets that mapping attached
as its default and its declared bounds cleared, and every method item has
the type of each captured value parameter and (when present) its return
type substituted. -/
theorem substitute_types_mapped_assoc_and_methods (a : Attrs)
    (tr : ItemTrait) (i : Nat) :
    (∀ tity ty, tr.items[i]? = some (.typeItem tity) →
        lookupTy a.attrs tity.ident = some ty →
        (a.substitute_types tr).1.items[i]? =
          some (.typeItem { tity with default := some ty, bounds := [] }))
  ∧ (∀ meth, tr.items[i]? = some (.methodItem meth) →
        (a.substitute_types tr).1.items[i]? =
          some (.methodItem { meth with sig := { meth.sig with decl :=
            { meth.sig.decl with
              inputs := meth.sig.decl.inputs.map (fun fa => match fa with
                | .captured pat ty => .captured pat (substTy a.attrs ty).1
                | .other sp => .other sp),
              output := meth.sig.decl.output.map
                (fun ty => (substTy a.attrs ty).1) } } })) := by
  have hitems : (a.substitute_types tr).1.items
      = tr.items.map (fun it => (substTraitItem a.attrs it).1) := by
    have : (a.substitute_types tr).1.items = (substTraitItems a.attrs tr.items).1 := rfl
    rw [this, substTraitItems_fst]
  constructor
  · intro tity ty hget hlook
    rw [hitems, List.getElem?_map, hget]
    simp [substTraitItem, hlook]
  · intro meth hget
    rw [hitems, List.getElem?_map, hget]
    cases ho : meth.sig.decl.output <;>
      simp [substTraitItem, substFnArgs_fst, ho]

/-- Witness for C6: `type T = u32;` applied to
`trait A { type T: Clone; fn foo(&self, x: Self::T) -> Self::T; }`. -/
theorem substitute_types_mapped_assoc_and_methods_witness :
    traitWithAssoc.items[0]? = some (.typeItem assocT)
  ∧ lookupTy attrsTu32.attrs assocT.ident = some u32Ty
  ∧ (attrsTu32.substitute_types traitWithAssoc).1.items[0]? =
      some (.typeItem { assocT with default := some u32Ty, bounds := [] })
  ∧ traitWithAssoc.items[1]? = some (.methodItem fooMeth)
  ∧ (attrsTu32.substitute_types traitWithAssoc).1.items[1]? =
      some (.methodItem { fooMeth with sig := { fooMeth.sig with decl :=
        { fooMeth.sig.decl with
          inputs := fooMeth.sig.decl.inputs.map (fun fa => match fa with
            | .captured pat ty => .captured pat (substTy attrsTu32.attrs ty).1
            | .other sp => .other sp),
          output := fooMeth.sig.decl.output.map
            (fun ty => (substTy attrsTu32.attrs ty).1) } } }) :=
  ⟨rfl, rfl,
   (substitute_types_mapped_assoc_and_methods attrsTu32 traitWithAssoc 0).1
     assocT u32Ty rfl rfl,
   rfl,
   (substitute_types_mapped_assoc_and_methods attrsTu32 traitWithAssoc 1).2
     fooMeth rfl⟩

/-- C8: for every impl block whose self type is a path type, synthesis
succeeds with forced public visibility, the exposed method signatures are
exactly the impl's method items in order, and the item enumeration emits
one diagnostic per item of unsupported kind while const items contribute
neither a method nor a diagnostic. -/
theorem mock_impl_items_and_visibility (ii : ItemImpl) (s : Span) (q : Bool)
    (p : Path) (h : ii.selfTy = .path s q p) :
    (∃ mo, (mock_impl ii).1 = some mo ∧ mo.vis = .pub ∧
      mo.methodSigs = ii.items.filterMap (fun it => match it with
        | .methodItem sig _ => some sig
        | _ => none))
  ∧ (collect_methods ii.items).2 = ii.items.filterMap (fun it => match it with
      | .otherItem sp =>
          some (⟨sp, "This impl item is not yet supported by MockAll"⟩ : Diagnostic)
      | _ => none) := by
  refine ⟨?_, collect_methods_diags ii.items⟩
  obtain ⟨un, gens, trp, sty, items⟩ := ii
  simp only at h
  subst h
  cases trp with
  | none =>
      refine ⟨_, rfl, rfl, ?_⟩
      simp [Mock.methodSigs, collect_methods_sigs]
  | some path =>
      refine ⟨_, rfl, rfl, ?_⟩
      simp only [Mock.methodSigs, List.map_nil, List.nil_append,
        List.flatMap_cons, List.flatMap_nil, List.append_nil]
      rw [methodItems_sigs, collect_methods_sigs]

/-- Witness for C8 at `impl Simple { const ..; fn foo(..); <unsupported> }`. -/
theorem mock_impl_items_and_visibility_witness :
    implSimple.selfTy = .path 0 false (.mk false [.mk "Simple" .none] 0)
  ∧ ((∃ mo, (mock_impl implSimple).1 = some mo ∧ mo.vis = .pub ∧
      mo.methodSigs = implSimple.items.filterMap (fun it => match it with
        | .methodItem sig _ => some sig
        | _ => none))
  ∧ (collect_methods implSimple.items).2 =
      implSimple.items.filterMap (fun it => match it with
        | .otherItem sp =>
            some (⟨sp, "This impl item is not yet supported by MockAll"⟩ : Diagnostic)
        | _ => none)) :=
  ⟨rfl, mock_impl_items_and_visibility implSimple 0 false
    (.mk false [.mk "Simple" .none] 0) rfl⟩

/-- C5 counterexample: on an impl block whose self-type path has two
segments, `mock_impl` does emit the multi-segment diagnostic, but it also
hands a complete mock payload (with an empty placeholder name) to the
builder — generated code is produced alongside the failure. -/
theorem mock_impl_multiseg_produces_output :
    (mock_impl implMultiSeg).2 =
      [⟨7, "mockall_derive only supports structs defined in the current module"⟩]
  ∧ (mock_impl implMultiSeg).1 =
      some { vis := .pub, name := "", generics := Generics.default,
             methods := [⟨fooSig, none⟩], traits := [] } := ⟨rfl, rfl⟩

/-- C5 (amended): for every impl block whose self-type path has more than
one segment, a diagnostic anchored at the path is emitted, but synthesis
does not stop: a mock payload whose name is the empty placeholder
identifier is still produced alongside the diagnostic. -/
theorem mock_impl_multiseg_diag_and_placeholder (ii : ItemImpl) (s : Span)
    (q : Bool) (p : Path) (h : ii.selfTy = .path s q p)
    (hlen : p.segments.length ≠ 1) :
    (⟨p.span, "mockall_derive only supports structs defined in the current module"⟩
        : Diagnostic) ∈ (mock_impl ii).2
  ∧ ∃ mo, (mock_impl ii).1 = some mo ∧ mo.name = "" := by
  obtain ⟨un, gens, trp, sty, items⟩ := ii
  simp only at h
  subst h
  have hfind : find_ident_from_path p =
      (("", PathArguments.none),
       [⟨p.span, "mockall_derive only supports structs defined in the current module"⟩]) := by
    rw [find_ident_from_path, if_pos hlen]
  cases trp <;> simp [mock_impl, hfind]

/-- Witness for the amended C5 at `impl outer::Inner { fn foo(..) }`. -/
theorem mock_impl_multiseg_diag_and_placeholder_witness :
    implMultiSeg.selfTy = .path 0 false multiSegPath
  ∧ multiSegPath.segments.length ≠ 1
  ∧ ((⟨multiSegPath.span,
        "mockall_derive only supports structs defined in the current module"⟩
          : Diagnostic) ∈ (mock_impl implMultiSeg).2
     ∧ ∃ mo, (mock_impl implMultiSeg).1 = some mo ∧ mo.name = "") :=
  ⟨rfl, by decide,
   mock_impl_multiseg_diag_and_placeholder implMultiSeg 0 false multiSegPath
     rfl (by decide)⟩

end Automock
